import Mathlib

/-!
# bigTime watchface (`src/c/watchface.c`)

A shallow embedding of the watchface's module state, its two event handlers
(`tick_handler`, `battery_handler`), the window load / unload callbacks and the
battery bar update procedure.

* The module's `static` variables become the fields of `State`.
* Every function is a pure function from the state and the values the host
  returns to it (`time`, `localtime`, `strftime`, `battery_state_service_peek`,
  `quiet_time_is_active`, the results of the `*_create` calls) to the new
  state and the list of host calls it issues, in program order.
* C `int` arithmetic is modelled on `Int` with truncating division
  (`Int.tdiv`, `Int.tmod`); the values involved (screen sizes, percents, clock
  fields) are far from the 32 bit range.
* A host call names the module variable it is applied to (`LayerRef`, the slot
  index of a digit widget) rather than the pointer value stored there.
-/

namespace Watchface

/-! ## Host types -/

/-- A pointer held in a module variable: `none` is `NULL`. -/
abbrev Ptr := Option Nat

/-- The `GPoint` of the host SDK. -/
structure GPoint where
  x : Int
  y : Int
  deriving DecidableEq

/-- The `GRect` of the host SDK: origin `(x, y)` and size `(w, h)`. -/
structure GRect where
  x : Int
  y : Int
  w : Int
  h : Int
  deriving DecidableEq

/-- The layers the module refers to: the three it owns and the layer of each
digit widget (`widget_big_digit_get_layer(s_big_digit_widgets[i])`). -/
inductive LayerRef where
  | battery_bar
  | underline
  | date_text
  | big_digit (i : Fin 4)
  deriving DecidableEq

/-- The two layer update procedures of the module. -/
inductive UpdateProc where
  | battery_update_proc
  | underline_update_proc
  deriving DecidableEq

/-- The colours the module uses. -/
inductive GColor where
  | White
  | Black
  | Clear
  deriving DecidableEq

/-- The calls the module issues to the host, to the glyph widget module and to
the graphics context. -/
inductive HostCall where
  | widget_big_digit_create (i : Fin 4) (origin : GPoint) (digit : Int)
  | layer_add_child (child : LayerRef)
  | layer_create (l : LayerRef) (frame : GRect)
  | layer_set_update_proc (l : LayerRef) (proc : UpdateProc)
  | text_layer_create (frame : GRect)
  | fonts_load_custom_font
  | text_layer_set_background_color (c : GColor)
  | text_layer_set_text_color (c : GColor)
  | text_layer_set_text (text : String)
  | text_layer_set_font
  | text_layer_set_text_alignment_center
  | widget_big_digit_set (i : Fin 4) (digit : Int)
  | layer_mark_dirty (l : LayerRef)
  | vibes_double_pulse
  | fonts_unload_custom_font
  | text_layer_destroy
  | layer_destroy (l : LayerRef)
  | widget_big_digit_destroy (i : Fin 4)
  | widget_big_digit_unload_images
  | graphics_context_set_fill_color (c : GColor)
  | graphics_fill_rect (r : GRect) (corner_radius : Int)
  deriving DecidableEq

/-- The fields of `struct tm` the module reads. -/
structure Tm where
  tm_hour : Int
  tm_min : Int
  deriving DecidableEq

/-- What `update_time` obtains from the C library: `temp = time(NULL)`,
`tick_time = localtime(&temp)` and the text `strftime` writes to
`date_buffer` for the format `"%a %d %b"`. -/
structure TimeObs where
  temp : Int
  tick_time : Tm
  date_buffer : String
  deriving DecidableEq

/-- The field of `BatteryChargeState` the module reads. -/
structure BatteryChargeState where
  charge_percent : Int
  deriving DecidableEq

/-! ## Module state -/

/-- `SETTING_HOURLY_CHIME` (line 6). -/
def SETTING_HOURLY_CHIME : Int := 1

/-- The `static` variables of the module (lines 8-22). -/
structure State where
  s_date_font : Ptr
  s_date_layer : Ptr
  s_battery_bar_layer : Ptr
  s_underline_layer : Ptr
  s_big_digit_widgets : Fin 4 → Ptr
  s_prev_battery_percent : Int
  s_prev_time_digits : Fin 4 → Int
  s_prev_date : Int

/-- The state at program start: pointers are zero initialised, the three cache
variables hold `-1` (lines 20-22). -/
def initial_state : State where
  s_date_font := none
  s_date_layer := none
  s_battery_bar_layer := none
  s_underline_layer := none
  s_big_digit_widgets := fun _ => none
  s_prev_battery_percent := -1
  s_prev_time_digits := fun _ => -1
  s_prev_date := -1

/-! ## Change detection and redraw -/

/-- `update_battery` (lines 24-33); `charge_state` is the result of
`battery_state_service_peek()`. -/
def update_battery (s : State) (charge_state : BatteryChargeState) :
    State × List HostCall :=
  if charge_state.charge_percent = s.s_prev_battery_percent then (s, [])
  else
    let s1 := { s with s_prev_battery_percent := charge_state.charge_percent }
    if s1.s_battery_bar_layer ≠ none then
      (s1, [HostCall.layer_mark_dirty LayerRef.battery_bar])
    else (s1, [])

/-- `battery_update_proc` (lines 35-41); `bounds` is `layer_get_bounds(layer)`. -/
def battery_update_proc (s : State) (bounds : GRect) : List HostCall :=
  let width := Int.tdiv (s.s_prev_battery_percent * bounds.w) 100
  [HostCall.graphics_context_set_fill_color GColor.White,
   HostCall.graphics_fill_rect ⟨0, 0, width, bounds.h⟩ 0]

/-- The local array `time_digits` of `update_time` (lines 57-61). -/
def time_digits (tick_time : Tm) : Fin 4 → Int :=
  ![Int.tdiv tick_time.tm_hour 10, Int.tmod tick_time.tm_hour 10,
    Int.tdiv tick_time.tm_min 10, Int.tmod tick_time.tm_min 10]

/-- One iteration of the loop of `update_time` (lines 63-67). -/
def update_time_step (digits : Fin 4 → Int) (acc : State × List HostCall)
    (i : Fin 4) : State × List HostCall :=
  if acc.1.s_prev_time_digits i ≠ digits i then
    ({ acc.1 with
        s_prev_time_digits := Function.update acc.1.s_prev_time_digits i (digits i) },
      acc.2 ++ [HostCall.widget_big_digit_set i (digits i),
                HostCall.layer_mark_dirty (LayerRef.big_digit i)])
  else acc

/-- `update_time` (lines 43-69). -/
def update_time (s : State) (obs : TimeObs) : State × List HostCall :=
  let r : State × List HostCall :=
    if s.s_prev_date ≠ obs.temp then
      ({ s with s_prev_date := obs.temp },
        [HostCall.text_layer_set_text obs.date_buffer])
    else (s, [])
  List.foldl (update_time_step (time_digits obs.tick_time)) r [0, 1, 2, 3]

/-- `underline_update_proc` (lines 71-75). -/
def underline_update_proc (bounds : GRect) : List HostCall :=
  [HostCall.graphics_context_set_fill_color GColor.White,
   HostCall.graphics_fill_rect bounds 0]

/-! ## Window load -/

/-- The values of the `GRect layout` block of `main_window_load`
(lines 81-105). -/
structure Layout where
  left_start : Int
  right_start : Int
  top_start : Int
  bottom_start : Int
  battery_bar_bounds : GRect
  underline : GRect
  date_bounds : GRect
  deriving DecidableEq

/-- The `GRect layout` block of `main_window_load` (lines 81-105).
`IMG_WIDTH` and `IMG_HEIGHT` are the glyph size constants of
`modules/big_digit.h`; `screen_width`, `screen_height` the size of the root
layer's bounds. -/
def main_window_layout (screen_width screen_height IMG_WIDTH IMG_HEIGHT : Int) :
    Layout :=
  let DIGIT_HORIZONTAL_SPACING : Int := 2
  let date_height : Int := 30
  let thickness : Int := 2
  let inset : Int := 2
  let left_start :=
    Int.tdiv (screen_width - IMG_WIDTH * 2 - DIGIT_HORIZONTAL_SPACING) 2
  let right_start := left_start + IMG_WIDTH + DIGIT_HORIZONTAL_SPACING
  let top_start := Int.tdiv (screen_height - IMG_HEIGHT * 2 - date_height) 2
  let bottom_start := top_start + IMG_HEIGHT + date_height
  { left_start := left_start
    right_start := right_start
    top_start := top_start
    bottom_start := bottom_start
    battery_bar_bounds :=
      ⟨0, Int.tdiv (screen_height - date_height) 2 + inset, screen_width, thickness⟩
    underline :=
      ⟨0, Int.tdiv (screen_height + date_height) 2 - thickness - inset,
        screen_width, thickness⟩
    date_bounds := ⟨0, Int.tdiv (screen_height - date_height) 2, screen_width, date_height⟩ }

/-- What the host returns to the `*_create` and font load calls of
`main_window_load`; `none` is a failed allocation. -/
structure Created where
  big_digit_widgets : Fin 4 → Ptr
  battery_bar_layer : Ptr
  underline_layer : Ptr
  date_layer : Ptr
  date_font : Ptr

/-- `main_window_load` (lines 77-138). -/
def main_window_load (s : State) (screen_width screen_height IMG_WIDTH IMG_HEIGHT : Int)
    (made : Created) (obs : TimeObs) (charge_state : BatteryChargeState) :
    State × List HostCall :=
  let lay := main_window_layout screen_width screen_height IMG_WIDTH IMG_HEIGHT
  let s1 : State :=
    { s with
      s_big_digit_widgets := made.big_digit_widgets
      s_battery_bar_layer := made.battery_bar_layer
      s_underline_layer := made.underline_layer
      s_date_layer := made.date_layer
      s_date_font := made.date_font }
  let t1 : List HostCall :=
    [HostCall.widget_big_digit_create 0 ⟨lay.left_start, lay.top_start⟩ 0,
     HostCall.widget_big_digit_create 1 ⟨lay.right_start, lay.top_start⟩ 0,
     HostCall.widget_big_digit_create 2 ⟨lay.left_start, lay.bottom_start⟩ 0,
     HostCall.widget_big_digit_create 3 ⟨lay.right_start, lay.bottom_start⟩ 0,
     HostCall.layer_add_child (LayerRef.big_digit 0),
     HostCall.layer_add_child (LayerRef.big_digit 1),
     HostCall.layer_add_child (LayerRef.big_digit 2),
     HostCall.layer_add_child (LayerRef.big_digit 3),
     HostCall.layer_create LayerRef.battery_bar lay.battery_bar_bounds,
     HostCall.layer_set_update_proc LayerRef.battery_bar UpdateProc.battery_update_proc,
     HostCall.layer_add_child LayerRef.battery_bar,
     HostCall.layer_create LayerRef.underline lay.underline,
     HostCall.layer_set_update_proc LayerRef.underline UpdateProc.underline_update_proc,
     HostCall.layer_add_child LayerRef.underline,
     HostCall.text_layer_create lay.date_bounds,
     HostCall.fonts_load_custom_font,
     HostCall.text_layer_set_background_color GColor.Clear,
     HostCall.text_layer_set_text_color GColor.White,
     HostCall.text_layer_set_text "Sat 21 Jun",
     HostCall.text_layer_set_font,
     HostCall.text_layer_set_text_alignment_center,
     HostCall.layer_add_child LayerRef.date_text]
  let r2 := update_time s1 obs
  let r3 := update_battery r2.1 charge_state
  (r3.1, t1 ++ r2.2 ++ r3.2)

/-! ## Window unload -/

/-- One iteration of the loop of `main_window_unload` (lines 154-157). -/
def main_window_unload_step (acc : State × List HostCall) (i : Fin 4) :
    State × List HostCall :=
  if acc.1.s_big_digit_widgets i ≠ none then
    ({ acc.1 with s_big_digit_widgets := Function.update acc.1.s_big_digit_widgets i none },
      acc.2 ++ [HostCall.widget_big_digit_destroy i])
  else acc

/-- `main_window_unload` (lines 140-160). -/
def main_window_unload (s : State) : State × List HostCall :=
  let t1 : List HostCall :=
    if s.s_date_font ≠ none then [HostCall.fonts_unload_custom_font] else []
  let t2 : List HostCall :=
    if s.s_date_layer ≠ none then t1 ++ [HostCall.text_layer_destroy] else t1
  let t3 : List HostCall :=
    if s.s_underline_layer ≠ none then t2 ++ [HostCall.layer_destroy LayerRef.underline]
    else t2
  let t4 : List HostCall :=
    if s.s_battery_bar_layer ≠ none then
      t3 ++ [HostCall.layer_destroy LayerRef.battery_bar]
    else t3
  let r := List.foldl main_window_unload_step (s, t4) [0, 1, 2, 3]
  (r.1, r.2 ++ [HostCall.widget_big_digit_unload_images])

/-! ## Event handlers -/

/-- `tick_handler` (lines 162-171). `tick_time` is the handler's argument, `obs`
what `update_time` reads from the clock and `quiet_time_active` the result of
`quiet_time_is_active()`, which `&&` evaluates only when the minute is 0. -/
def tick_handler (s : State) (tick_time : Tm) (obs : TimeObs)
    (quiet_time_active : Bool) : State × List HostCall :=
  let r := update_time s obs
  if SETTING_HOURLY_CHIME ≠ 0 ∧ tick_time.tm_min = 0 ∧ ¬ (quiet_time_active = true) then
    (r.1, r.2 ++ [HostCall.vibes_double_pulse])
  else r

/-- `battery_handler` (lines 173-176). The handler's own argument is not read:
`update_battery` peeks the charge state again, and `peeked` is that result. -/
def battery_handler (s : State) (_charge_state peeked : BatteryChargeState) :
    State × List HostCall :=
  let r := update_battery s peeked
  (r.1, r.2 ++ [HostCall.layer_mark_dirty LayerRef.battery_bar])

/-! ## Observations on call traces -/

/-- Number of repaint requests (`layer_mark_dirty`) for layer `l` in a trace. -/
def repaints (l : LayerRef) (t : List HostCall) : Nat :=
  t.count (HostCall.layer_mark_dirty l)

/-- Whether a call is `widget_big_digit_set` on the widget of slot `i`. -/
def is_digit_set (i : Fin 4) : HostCall → Bool
  | HostCall.widget_big_digit_set j _ => decide (j = i)
  | _ => false

/-- Number of `widget_big_digit_set` calls on the widget of slot `i`. -/
def digit_sets (i : Fin 4) (t : List HostCall) : Nat :=
  t.countP (is_digit_set i)

/-- Whether a call is `text_layer_set_text`. -/
def is_date_text_set : HostCall → Bool
  | HostCall.text_layer_set_text _ => true
  | _ => false

/-- Number of `text_layer_set_text` calls in a trace. -/
def date_text_sets (t : List HostCall) : Nat :=
  t.countP is_date_text_set

/-- Number of `vibes_double_pulse` calls in a trace. -/
def chimes (t : List HostCall) : Nat :=
  t.count HostCall.vibes_double_pulse

/-- The calls `update_time` issues for slot `i` when the cached digit is `old`
and the new one `new`. -/
def digit_calls (i : Fin 4) (old new : Int) : List HostCall :=
  if old ≠ new then
    [HostCall.widget_big_digit_set i new, HostCall.layer_mark_dirty (LayerRef.big_digit i)]
  else []

/-- The calls `update_time` issues for the date text when the cached timestamp
is `old` and the observation is `obs`. -/
def date_calls (old : Int) (obs : TimeObs) : List HostCall :=
  if old ≠ obs.temp then [HostCall.text_layer_set_text obs.date_buffer] else []

/-- The cache holds the values of its static initialisers (lines 20-22). -/
def cache_unset (s : State) : Prop :=
  s.s_prev_battery_percent = -1 ∧ (∀ i, s.s_prev_time_digits i = -1) ∧ s.s_prev_date = -1

/-- Every resource `main_window_load` creates is present. -/
def fully_constructed (s : State) : Prop :=
  s.s_date_font ≠ none ∧ s.s_date_layer ≠ none ∧ s.s_underline_layer ≠ none ∧
    s.s_battery_bar_layer ≠ none ∧ ∀ i, s.s_big_digit_widgets i ≠ none

/-- The origins passed to `widget_big_digit_create`, with the slot each widget
is stored in, in call order. -/
def created_anchors (t : List HostCall) : List (Fin 4 × GPoint) :=
  t.filterMap fun c =>
    match c with
    | HostCall.widget_big_digit_create i p _ => some (i, p)
    | _ => none

/-- Call `a` occurs in the trace, and before the first occurrence of `b` if
there is one. -/
def issued_before (a b : HostCall) (t : List HostCall) : Prop :=
  a ∈ t ∧ t.indexOf a < t.indexOf b

instance (a b : HostCall) (t : List HostCall) : Decidable (issued_before a b t) := by
  unfold issued_before
  infer_instance

/-- The release call `main_window_unload` issues for a pointer variable when it
is not `NULL`. -/
def release_calls (p : Ptr) (c : HostCall) : List HostCall :=
  if p ≠ none then [c] else []

/-- The widths of the rectangles a drawing trace fills, in call order. -/
def fill_widths (t : List HostCall) : List Int :=
  t.filterMap fun c =>
    match c with
    | HostCall.graphics_fill_rect r _ => some r.w
    | _ => none

/-! ## The Active state

Between window load and window unload the host delivers minute ticks and
battery events one at a time (`init`, lines 187-189). -/

/-- An event delivered to the module, with the values its handler obtains from
the host while it runs. -/
inductive Event where
  | minute_tick (tick_time : Tm) (obs : TimeObs) (quiet_time_active : Bool)
  | battery_event (charge_state peeked : BatteryChargeState)

/-- The state after the handler subscribed for the event has run. -/
def handle_event (s : State) : Event → State
  | Event.minute_tick tick_time obs quiet_time_active =>
      (tick_handler s tick_time obs quiet_time_active).1
  | Event.battery_event charge_state peeked => (battery_handler s charge_state peeked).1

/-- The state after a sequence of events, handled in arrival order. -/
def run_events (s : State) (events : List Event) : State :=
  List.foldl handle_event s events

/-- The battery percent an event lets the module observe (the peeked charge
state of a battery event), in 0..100; minute ticks observe none. -/
def event_percent_in_range : Event → Prop
  | Event.minute_tick _ _ _ => True
  | Event.battery_event _ peeked => 0 ≤ peeked.charge_percent ∧ peeked.charge_percent ≤ 100

/-- The most recently observed battery percent: `p` before the events, then the
peeked percent of the last battery event. -/
def last_observed_percent (p : Int) (events : List Event) : Int :=
  List.foldl
    (fun q e =>
      match e with
      | Event.minute_tick _ _ _ => q
      | Event.battery_event _ peeked => peeked.charge_percent)
    p events

/-! ## Sample states -/

/-- A state with every resource created and the cache still unset. -/
def fresh_state : State where
  s_date_font := some 1
  s_date_layer := some 2
  s_battery_bar_layer := some 3
  s_underline_layer := some 4
  s_big_digit_widgets := fun i => some (5 + i.val)
  s_prev_battery_percent := -1
  s_prev_time_digits := fun _ => -1
  s_prev_date := -1

/-- A state with every resource created, showing 12:30 at 50 percent. -/
def running_state : State where
  s_date_font := some 1
  s_date_layer := some 2
  s_battery_bar_layer := some 3
  s_underline_layer := some 4
  s_big_digit_widgets := fun i => some (5 + i.val)
  s_prev_battery_percent := 50
  s_prev_time_digits := ![1, 2, 3, 0]
  s_prev_date := 1750509000

/-! ## Characterisation of `update_time` and `update_battery` -/

theorem update_time_step_fst (d : Fin 4 → Int) (acc : State × List HostCall) (i : Fin 4) :
    (update_time_step d acc i).1 =
      { acc.1 with s_prev_time_digits := Function.update acc.1.s_prev_time_digits i (d i) } := by
  unfold update_time_step
  split
  · rfl
  · rename_i h
    have h2 : acc.1.s_prev_time_digits i = d i := by simpa using h
    have : Function.update acc.1.s_prev_time_digits i (d i) = acc.1.s_prev_time_digits := by
      rw [← h2]; exact Function.update_eq_self i _
    rw [this]

theorem update_time_step_snd (d : Fin 4 → Int) (acc : State × List HostCall) (i : Fin 4) :
    (update_time_step d acc i).2 = acc.2 ++ digit_calls i (acc.1.s_prev_time_digits i) (d i) := by
  unfold update_time_step digit_calls
  split <;> simp_all

theorem update_time_fst (s : State) (obs : TimeObs) :
    (update_time s obs).1 =
      { s with s_prev_date := obs.temp, s_prev_time_digits := time_digits obs.tick_time } := by
  unfold update_time
  simp only [List.foldl_cons, List.foldl_nil, update_time_step_fst]
  have hd : (if s.s_prev_date ≠ obs.temp then
        (({ s with s_prev_date := obs.temp } : State),
          [HostCall.text_layer_set_text obs.date_buffer])
      else (s, [])).1 = { s with s_prev_date := obs.temp } := by
    split
    · rfl
    · rename_i h
      have h2 : s.s_prev_date = obs.temp := by simpa using h
      cases s
      simp_all
  rw [hd]
  have hf : Function.update (Function.update (Function.update (Function.update
      s.s_prev_time_digits 0 (time_digits obs.tick_time 0)) 1 (time_digits obs.tick_time 1))
      2 (time_digits obs.tick_time 2)) 3 (time_digits obs.tick_time 3)
      = time_digits obs.tick_time := by
    funext i
    fin_cases i <;> simp [Function.update]
  simp only [hf]

theorem update_time_snd (s : State) (obs : TimeObs) :
    (update_time s obs).2 =
      date_calls s.s_prev_date obs
        ++ digit_calls 0 (s.s_prev_time_digits 0) (time_digits obs.tick_time 0)
        ++ digit_calls 1 (s.s_prev_time_digits 1) (time_digits obs.tick_time 1)
        ++ digit_calls 2 (s.s_prev_time_digits 2) (time_digits obs.tick_time 2)
        ++ digit_calls 3 (s.s_prev_time_digits 3) (time_digits obs.tick_time 3) := by
  unfold update_time
  simp only [List.foldl_cons, List.foldl_nil, update_time_step_fst, update_time_step_snd]
  have hd : (if s.s_prev_date ≠ obs.temp then
        (({ s with s_prev_date := obs.temp } : State),
          [HostCall.text_layer_set_text obs.date_buffer])
      else (s, [])).2 = date_calls s.s_prev_date obs := by
    unfold date_calls
    split <;> rfl
  have hp : (if s.s_prev_date ≠ obs.temp then
        (({ s with s_prev_date := obs.temp } : State),
          [HostCall.text_layer_set_text obs.date_buffer])
      else (s, [])).1.s_prev_time_digits = s.s_prev_time_digits := by
    split <;> rfl
  rw [hd, hp]
  simp [Function.update]

theorem update_battery_fst (s : State) (c : BatteryChargeState) :
    (update_battery s c).1 = { s with s_prev_battery_percent := c.charge_percent } := by
  unfold update_battery
  split
  · rename_i h
    cases s
    simp_all
  · dsimp only
    split <;> rfl

theorem update_battery_snd (s : State) (c : BatteryChargeState) :
    (update_battery s c).2 =
      if c.charge_percent ≠ s.s_prev_battery_percent ∧ s.s_battery_bar_layer ≠ none then
        [HostCall.layer_mark_dirty LayerRef.battery_bar]
      else [] := by
  unfold update_battery
  by_cases h : c.charge_percent = s.s_prev_battery_percent
  · simp [h]
  · by_cases h2 : s.s_battery_bar_layer = none <;> simp [h, h2]

theorem tick_handler_fst (s : State) (tick_time : Tm) (obs : TimeObs) (q : Bool) :
    (tick_handler s tick_time obs q).1 = (update_time s obs).1 := by
  unfold tick_handler
  dsimp only
  split <;> rfl

theorem digit_calls_self (i : Fin 4) (d : Int) : digit_calls i d d = [] := by
  simp [digit_calls]

/-! ## Battery events -/

theorem battery_handler_repaints (s : State) (ev peeked : BatteryChargeState) :
    repaints LayerRef.battery_bar (battery_handler s ev peeked).2 =
      if peeked.charge_percent ≠ s.s_prev_battery_percent ∧ s.s_battery_bar_layer ≠ none
      then 2 else 1 := by
  unfold battery_handler repaints
  dsimp only
  rw [update_battery_snd]
  split <;> simp

/-- C1: the claim says a battery event issues one repaint request for the
battery bar when the percent changed and none when it did not. On
`running_state` (cached percent 50, battery bar layer present) an event with
percent 50 issues one request, and an event with percent 60 issues two: the
handler marks the layer dirty after `update_battery` whatever it did. -/
theorem battery_handler_repaints_at_unchanged_percent :
    running_state.s_prev_battery_percent = 50 ∧
      repaints LayerRef.battery_bar (battery_handler running_state ⟨50⟩ ⟨50⟩).2 = 1 ∧
      repaints LayerRef.battery_bar (update_battery running_state ⟨50⟩).2 = 0 ∧
      repaints LayerRef.battery_bar (battery_handler running_state ⟨60⟩ ⟨60⟩).2 = 2 ∧
      repaints LayerRef.battery_bar (update_battery running_state ⟨60⟩).2 = 1 := by
  refine ⟨rfl, ?_, ?_, ?_, ?_⟩
  · rw [battery_handler_repaints]; simp [running_state]
  · rw [update_battery_snd]; simp [running_state, repaints]
  · rw [battery_handler_repaints]; simp [running_state]
  · rw [update_battery_snd]; simp [running_state, repaints]

/-! ## Minute ticks -/

theorem digit_sets_digit_calls (i j : Fin 4) (old new : Int) :
    digit_sets i (digit_calls j old new) = if j = i ∧ old ≠ new then 1 else 0 := by
  unfold digit_sets digit_calls
  by_cases h : old = new <;> by_cases hj : j = i <;> simp [h, hj, is_digit_set]

theorem repaints_digit_calls (i j : Fin 4) (old new : Int) :
    repaints (LayerRef.big_digit i) (digit_calls j old new) =
      if j = i ∧ old ≠ new then 1 else 0 := by
  unfold repaints digit_calls
  by_cases h : old = new <;> by_cases hj : j = i
  · simp [h]
  · simp [h]
  · simp [h, hj]
  · have hj2 : ¬ i = j := fun e => hj e.symm
    simp [h, hj, hj2, List.count_cons]

theorem mem_digit_calls (i : Fin 4) (old new : Int) (c : HostCall) :
    c ∈ digit_calls i old new ↔
      old ≠ new ∧ (c = HostCall.widget_big_digit_set i new ∨
        c = HostCall.layer_mark_dirty (LayerRef.big_digit i)) := by
  unfold digit_calls
  by_cases h : old = new <;> simp [h]

theorem mem_update_time (s : State) (obs : TimeObs) (c : HostCall) :
    c ∈ (update_time s obs).2 ↔
      (s.s_prev_date ≠ obs.temp ∧ c = HostCall.text_layer_set_text obs.date_buffer) ∨
      ∃ i : Fin 4, s.s_prev_time_digits i ≠ time_digits obs.tick_time i ∧
        (c = HostCall.widget_big_digit_set i (time_digits obs.tick_time i) ∨
          c = HostCall.layer_mark_dirty (LayerRef.big_digit i)) := by
  have hd : c ∈ date_calls s.s_prev_date obs ↔
      (s.s_prev_date ≠ obs.temp ∧ c = HostCall.text_layer_set_text obs.date_buffer) := by
    unfold date_calls
    by_cases h : s.s_prev_date = obs.temp <;> simp [h]
  rw [update_time_snd]
  simp only [List.mem_append, mem_digit_calls, hd]
  constructor
  · rintro ((((h | h) | h) | h) | h)
    · exact Or.inl h
    · exact Or.inr ⟨0, h⟩
    · exact Or.inr ⟨1, h⟩
    · exact Or.inr ⟨2, h⟩
    · exact Or.inr ⟨3, h⟩
  · rintro (h | ⟨i, h⟩)
    · exact Or.inl (Or.inl (Or.inl (Or.inl h)))
    · fin_cases i
      · exact Or.inl (Or.inl (Or.inl (Or.inr h)))
      · exact Or.inl (Or.inl (Or.inr h))
      · exact Or.inl (Or.inr h)
      · exact Or.inr h

theorem digit_sets_update_time (s : State) (obs : TimeObs) (i : Fin 4) :
    digit_sets i (update_time s obs).2 =
      if s.s_prev_time_digits i ≠ time_digits obs.tick_time i then 1 else 0 := by
  have hd : digit_sets i (date_calls s.s_prev_date obs) = 0 := by
    unfold digit_sets date_calls
    split <;> simp [is_digit_set]
  have happ : ∀ a b : List HostCall, digit_sets i (a ++ b) = digit_sets i a + digit_sets i b := by
    intro a b
    simp [digit_sets, List.countP_append]
  rw [update_time_snd]
  simp only [happ, hd, digit_sets_digit_calls]
  fin_cases i <;> simp

theorem repaints_update_time (s : State) (obs : TimeObs) (i : Fin 4) :
    repaints (LayerRef.big_digit i) (update_time s obs).2 =
      if s.s_prev_time_digits i ≠ time_digits obs.tick_time i then 1 else 0 := by
  have hd : repaints (LayerRef.big_digit i) (date_calls s.s_prev_date obs) = 0 := by
    unfold repaints date_calls
    split <;> simp
  have happ : ∀ a b : List HostCall, repaints (LayerRef.big_digit i) (a ++ b) =
      repaints (LayerRef.big_digit i) a + repaints (LayerRef.big_digit i) b := by
    intro a b
    simp [repaints, List.count_append]
  rw [update_time_snd]
  simp only [happ, hd, repaints_digit_calls]
  fin_cases i <;> simp

theorem date_text_sets_update_time (s : State) (obs : TimeObs) :
    date_text_sets (update_time s obs).2 = if s.s_prev_date ≠ obs.temp then 1 else 0 := by
  have hd : ∀ (i : Fin 4) (a b : Int), date_text_sets (digit_calls i a b) = 0 := by
    intro i a b
    unfold date_text_sets digit_calls
    split <;> simp [is_date_text_set]
  have happ : ∀ a b : List HostCall,
      date_text_sets (a ++ b) = date_text_sets a + date_text_sets b := by
    intro a b
    simp [date_text_sets, List.countP_append]
  rw [update_time_snd]
  simp only [happ, hd]
  unfold date_text_sets date_calls
  split <;> simp [is_date_text_set]

/-- C2: for every state and every clock observation, `update_time` issues calls
for exactly the changed cells. Slot `i` gets one `widget_big_digit_set` and one
repaint request when its new digit differs from the cached one and none
otherwise; the date text is set once when the timestamp differs from the
cached one and not otherwise; and every call issued is the date text set of a
changed timestamp, or the digit set (with the new digit) or the repaint
request of a changed slot. -/
theorem update_time_calls_exactly_changed_set (s : State) (obs : TimeObs) :
    (∀ i : Fin 4,
      digit_sets i (update_time s obs).2 =
        (if time_digits obs.tick_time i ≠ s.s_prev_time_digits i then 1 else 0) ∧
      repaints (LayerRef.big_digit i) (update_time s obs).2 =
        (if time_digits obs.tick_time i ≠ s.s_prev_time_digits i then 1 else 0)) ∧
    date_text_sets (update_time s obs).2 = (if obs.temp ≠ s.s_prev_date then 1 else 0) ∧
    (∀ c ∈ (update_time s obs).2,
      (obs.temp ≠ s.s_prev_date ∧ c = HostCall.text_layer_set_text obs.date_buffer) ∨
      ∃ i : Fin 4, time_digits obs.tick_time i ≠ s.s_prev_time_digits i ∧
        (c = HostCall.widget_big_digit_set i (time_digits obs.tick_time i) ∨
          c = HostCall.layer_mark_dirty (LayerRef.big_digit i))) := by
  refine ⟨fun i => ⟨?_, ?_⟩, ?_, ?_⟩
  · rw [digit_sets_update_time]
    simp only [ne_comm]
  · rw [repaints_update_time]
    simp only [ne_comm]
  · rw [date_text_sets_update_time]
    simp only [ne_comm]
  · intro c hc
    rcases (mem_update_time s obs c).1 hc with h | ⟨i, h1, h2⟩
    · exact Or.inl ⟨Ne.symm h.1, h.2⟩
    · exact Or.inr ⟨i, Ne.symm h1, h2⟩

theorem time_digits_ne_neg_one (tick_time : Tm) (hh : 0 ≤ tick_time.tm_hour)
    (hm : 0 ≤ tick_time.tm_min) (i : Fin 4) : time_digits tick_time i ≠ -1 := by
  have h1 := Int.tdiv_eq_ediv hh (by norm_num : (0 : Int) ≤ 10)
  have h2 := Int.tmod_eq_emod hh (by norm_num : (0 : Int) ≤ 10)
  have h3 := Int.tdiv_eq_ediv hm (by norm_num : (0 : Int) ≤ 10)
  have h4 := Int.tmod_eq_emod hm (by norm_num : (0 : Int) ≤ 10)
  fin_cases i <;> simp [time_digits] <;> omega

/-- C3 (as stated, refuted): on a state whose cache is unset, an observation
whose timestamp is `-1`, the value the date cache starts with, does not set the
date text. -/
theorem first_observation_with_timestamp_neg_one_sets_no_date :
    cache_unset fresh_state ∧
      date_text_sets (update_time fresh_state ⟨-1, ⟨23, 59⟩, "Wed 31 Dec"⟩).2 = 0 ∧
      (update_time fresh_state ⟨-1, ⟨23, 59⟩, "Wed 31 Dec"⟩).2 =
        [HostCall.widget_big_digit_set 0 2, HostCall.layer_mark_dirty (LayerRef.big_digit 0),
         HostCall.widget_big_digit_set 1 3, HostCall.layer_mark_dirty (LayerRef.big_digit 1),
         HostCall.widget_big_digit_set 2 5, HostCall.layer_mark_dirty (LayerRef.big_digit 2),
         HostCall.widget_big_digit_set 3 9, HostCall.layer_mark_dirty (LayerRef.big_digit 3)] := by
  refine ⟨⟨rfl, fun _ => rfl, rfl⟩, ?_, ?_⟩
  · rw [date_text_sets_update_time]
    simp [fresh_state]
  · rw [update_time_snd]
    simp [fresh_state, date_calls, digit_calls, time_digits, Int.tdiv, Int.tmod]

/-- C3 (amended): on a state whose cache is unset and whose battery bar layer
is present, an observation whose values differ from the `-1` the cache starts
with (percent other than -1, timestamp other than -1, hour and minute not
negative) is reported as changed in every cell: `update_battery` stores the
percent and requests one battery bar repaint, `update_time` sets the date text
once, and sets and repaints each of the four digit widgets once. -/
theorem first_observation_forces_full_paint (s : State) (obs : TimeObs)
    (c : BatteryChargeState) (h0 : cache_unset s) (hl : s.s_battery_bar_layer ≠ none)
    (hp : c.charge_percent ≠ -1) (ht : obs.temp ≠ -1)
    (hh : 0 ≤ obs.tick_time.tm_hour) (hm : 0 ≤ obs.tick_time.tm_min) :
    (update_battery s c).2 = [HostCall.layer_mark_dirty LayerRef.battery_bar] ∧
    (update_battery s c).1.s_prev_battery_percent = c.charge_percent ∧
    date_text_sets (update_time s obs).2 = 1 ∧
    (∀ i : Fin 4, digit_sets i (update_time s obs).2 = 1 ∧
      repaints (LayerRef.big_digit i) (update_time s obs).2 = 1 ∧
      HostCall.widget_big_digit_set i (time_digits obs.tick_time i) ∈ (update_time s obs).2) := by
  obtain ⟨hb, hd, hdate⟩ := h0
  refine ⟨?_, ?_, ?_, fun i => ?_⟩
  · rw [update_battery_snd, hb]
    simp [hp, hl]
  · rw [update_battery_fst]
  · rw [date_text_sets_update_time, hdate]
    simp [Ne.symm ht]
  · have hne : s.s_prev_time_digits i ≠ time_digits obs.tick_time i := by
      rw [hd i]
      exact Ne.symm (time_digits_ne_neg_one obs.tick_time hh hm i)
    refine ⟨?_, ?_, ?_⟩
    · rw [digit_sets_update_time]
      simp [hne]
    · rw [repaints_update_time]
      simp [hne]
    · exact (mem_update_time s obs _).2 (Or.inr ⟨i, hne, Or.inl rfl⟩)

/-- C3 witness: the first observation 12:30 at 0 percent on `fresh_state`. -/
theorem first_observation_forces_full_paint_witness :
    (update_battery fresh_state ⟨0⟩).2 = [HostCall.layer_mark_dirty LayerRef.battery_bar] ∧
    (update_battery fresh_state ⟨0⟩).1.s_prev_battery_percent = 0 ∧
    date_text_sets (update_time fresh_state ⟨1750509000, ⟨12, 30⟩, "Sat 21 Jun"⟩).2 = 1 ∧
    (∀ i : Fin 4,
      digit_sets i (update_time fresh_state ⟨1750509000, ⟨12, 30⟩, "Sat 21 Jun"⟩).2 = 1 ∧
      repaints (LayerRef.big_digit i)
        (update_time fresh_state ⟨1750509000, ⟨12, 30⟩, "Sat 21 Jun"⟩).2 = 1 ∧
      HostCall.widget_big_digit_set i (time_digits ⟨12, 30⟩ i) ∈
        (update_time fresh_state ⟨1750509000, ⟨12, 30⟩, "Sat 21 Jun"⟩).2) :=
  first_observation_forces_full_paint fresh_state ⟨1750509000, ⟨12, 30⟩, "Sat 21 Jun"⟩ ⟨0⟩
    ⟨rfl, fun _ => rfl, rfl⟩ (by simp [fresh_state]) (by decide) (by decide) (by decide)
    (by decide)

theorem update_time_noop (s : State) (obs : TimeObs) (hd : s.s_prev_date = obs.temp)
    (hg : s.s_prev_time_digits = time_digits obs.tick_time) : update_time s obs = (s, []) := by
  apply Prod.ext
  · rw [update_time_fst]
    cases s
    simp_all
  · rw [update_time_snd, hg]
    simp [digit_calls_self, date_calls, hd]

theorem update_battery_noop (s : State) (c : BatteryChargeState)
    (h : c.charge_percent = s.s_prev_battery_percent) : update_battery s c = (s, []) := by
  unfold update_battery
  simp [h]

/-- C4: feeding the same observation twice changes nothing the second time.
After `update_time` and `update_battery` have run on an observation, running
`update_time` and then `update_battery` again on the same observation issues no
call and leaves the state as it was; the same holds for each of the two
functions on its own. -/
theorem same_observation_twice_is_unchanged (s : State) (obs : TimeObs)
    (c : BatteryChargeState) :
    update_time (update_battery (update_time s obs).1 c).1 obs =
      ((update_battery (update_time s obs).1 c).1, []) ∧
    update_battery (update_time (update_battery (update_time s obs).1 c).1 obs).1 c =
      ((update_battery (update_time s obs).1 c).1, []) ∧
    update_time (update_time s obs).1 obs = ((update_time s obs).1, []) ∧
    update_battery (update_battery s c).1 c = ((update_battery s c).1, []) := by
  have h1 : update_time (update_battery (update_time s obs).1 c).1 obs =
      ((update_battery (update_time s obs).1 c).1, []) := by
    apply update_time_noop
    · rw [update_battery_fst, update_time_fst]
    · rw [update_battery_fst, update_time_fst]
  refine ⟨h1, ?_, ?_, ?_⟩
  · rw [h1]
    apply update_battery_noop
    rw [update_battery_fst]
  · apply update_time_noop
    · rw [update_time_fst]
    · rw [update_time_fst]
  · apply update_battery_noop
    rw [update_battery_fst]

theorem chimes_update_time (s : State) (obs : TimeObs) : chimes (update_time s obs).2 = 0 := by
  unfold chimes
  rw [List.count_eq_zero, mem_update_time]
  simp

/-- C5: a minute tick triggers exactly one `vibes_double_pulse` when the tick's
minute is 0 and quiet time is not active, and none otherwise (minute 0 in quiet
time, or any other minute whatever quiet time says). -/
theorem tick_handler_chime_gating (s : State) (tick_time : Tm) (obs : TimeObs)
    (quiet_time_active : Bool) :
    chimes (tick_handler s tick_time obs quiet_time_active).2 =
      if tick_time.tm_min = 0 ∧ quiet_time_active = false then 1 else 0 := by
  have h0 := chimes_update_time s obs
  unfold tick_handler
  dsimp only
  by_cases hm : tick_time.tm_min = 0 <;> cases quiet_time_active <;>
    simp [hm, SETTING_HOURLY_CHIME, h0]
  simp [chimes] at h0 ⊢
  exact h0

/-! ## Window load -/

theorem created_anchors_append (a b : List HostCall) :
    created_anchors (a ++ b) = created_anchors a ++ created_anchors b := by
  simp [created_anchors, List.filterMap_append]

theorem created_anchors_update_time (s : State) (obs : TimeObs) :
    created_anchors (update_time s obs).2 = [] := by
  unfold created_anchors
  rw [List.filterMap_eq_nil_iff]
  intro c hc
  rcases (mem_update_time s obs c).1 hc with h | ⟨i, _, h | h⟩
  · rw [h.2]
  · rw [h]
  · rw [h]

theorem created_anchors_update_battery (s : State) (c : BatteryChargeState) :
    created_anchors (update_battery s c).2 = [] := by
  rw [update_battery_snd]
  split <;> simp [created_anchors]

/-- C6: `main_window_load` creates the four digit widgets, slots 0 to 3 in this
order, at (left, top), (right, top), (left, bottom), (right, bottom), where
left = (screenWidth - 2*glyphWidth - 2) / 2, right = left + glyphWidth + 2,
top = (screenHeight - 2*glyphHeight - 30) / 2, bottom = top + glyphHeight + 30,
with C integer division. On a 200x228 screen with 80x100 glyphs the columns are
at x = 19 and x = 101 (and the rows at y = -1 and y = 129). -/
theorem main_window_load_digit_anchors (s : State)
    (screen_width screen_height IMG_WIDTH IMG_HEIGHT : Int) (made : Created)
    (obs : TimeObs) (c : BatteryChargeState) :
    created_anchors
        (main_window_load s screen_width screen_height IMG_WIDTH IMG_HEIGHT made obs c).2 =
      [(0, ⟨Int.tdiv (screen_width - 2 * IMG_WIDTH - 2) 2,
            Int.tdiv (screen_height - 2 * IMG_HEIGHT - 30) 2⟩),
       (1, ⟨Int.tdiv (screen_width - 2 * IMG_WIDTH - 2) 2 + IMG_WIDTH + 2,
            Int.tdiv (screen_height - 2 * IMG_HEIGHT - 30) 2⟩),
       (2, ⟨Int.tdiv (screen_width - 2 * IMG_WIDTH - 2) 2,
            Int.tdiv (screen_height - 2 * IMG_HEIGHT - 30) 2 + IMG_HEIGHT + 30⟩),
       (3, ⟨Int.tdiv (screen_width - 2 * IMG_WIDTH - 2) 2 + IMG_WIDTH + 2,
            Int.tdiv (screen_height - 2 * IMG_HEIGHT - 30) 2 + IMG_HEIGHT + 30⟩)] ∧
    created_anchors (main_window_load s 200 228 80 100 made obs c).2 =
      [(0, ⟨19, -1⟩), (1, ⟨101, -1⟩), (2, ⟨19, 129⟩), (3, ⟨101, 129⟩)] := by
  have key : ∀ sw sh gw gh : Int,
      created_anchors (main_window_load s sw sh gw gh made obs c).2 =
        [(0, ⟨Int.tdiv (sw - 2 * gw - 2) 2, Int.tdiv (sh - 2 * gh - 30) 2⟩),
         (1, ⟨Int.tdiv (sw - 2 * gw - 2) 2 + gw + 2, Int.tdiv (sh - 2 * gh - 30) 2⟩),
         (2, ⟨Int.tdiv (sw - 2 * gw - 2) 2, Int.tdiv (sh - 2 * gh - 30) 2 + gh + 30⟩),
         (3, ⟨Int.tdiv (sw - 2 * gw - 2) 2 + gw + 2,
              Int.tdiv (sh - 2 * gh - 30) 2 + gh + 30⟩)] := by
    intro sw sh gw gh
    unfold main_window_load
    dsimp only
    rw [created_anchors_append, created_anchors_append, created_anchors_update_time,
      created_anchors_update_battery]
    simp [created_anchors, main_window_layout, mul_comm]
  refine ⟨key _ _ _ _, ?_⟩
  rw [key]
  decide

/-! ## Battery bar -/

/-- C7: with a cached percent `p` in 0..100 and a bar of width `w >= 0`,
`battery_update_proc` fills the rectangle at the left edge (origin (0, 0), full
height) whose width is floor(p * w / 100); for p = 0 the width is 0, for
p = 100 it is w and for p = 50 it is floor(w / 2); the width never exceeds w. -/
theorem battery_update_proc_fill_width (s : State) (bounds : GRect)
    (hp0 : 0 ≤ s.s_prev_battery_percent) (hp1 : s.s_prev_battery_percent ≤ 100)
    (hw : 0 ≤ bounds.w) :
    battery_update_proc s bounds =
      [HostCall.graphics_context_set_fill_color GColor.White,
       HostCall.graphics_fill_rect
         ⟨0, 0, s.s_prev_battery_percent * bounds.w / 100, bounds.h⟩ 0] ∧
    (s.s_prev_battery_percent = 0 → s.s_prev_battery_percent * bounds.w / 100 = 0) ∧
    (s.s_prev_battery_percent = 100 → s.s_prev_battery_percent * bounds.w / 100 = bounds.w) ∧
    (s.s_prev_battery_percent = 50 →
      s.s_prev_battery_percent * bounds.w / 100 = bounds.w / 2) ∧
    s.s_prev_battery_percent * bounds.w / 100 ≤ bounds.w := by
  have hpw : 0 ≤ s.s_prev_battery_percent * bounds.w := Int.mul_nonneg hp0 hw
  have hle : s.s_prev_battery_percent * bounds.w ≤ 100 * bounds.w :=
    Int.mul_le_mul_of_nonneg_right hp1 hw
  refine ⟨?_, ?_, ?_, ?_, by omega⟩
  · unfold battery_update_proc
    dsimp only
    rw [Int.tdiv_eq_ediv hpw (by norm_num)]
  · intro h
    rw [h]
    simp
  · intro h
    rw [h]
    omega
  · intro h
    rw [h]
    omega

/-- C7 witness: 50 percent on a bar 144 pixels wide and 2 high fills 72 pixels. -/
theorem battery_update_proc_fill_width_witness :
    battery_update_proc running_state ⟨0, 0, 144, 2⟩ =
      [HostCall.graphics_context_set_fill_color GColor.White,
       HostCall.graphics_fill_rect ⟨0, 0, 72, 2⟩ 0] :=
  (battery_update_proc_fill_width running_state ⟨0, 0, 144, 2⟩
    (by decide) (by decide) (by decide)).1

/-! ## Window unload -/

theorem main_window_unload_step_fst (acc : State × List HostCall) (i : Fin 4) :
    (main_window_unload_step acc i).1 =
      { acc.1 with s_big_digit_widgets := Function.update acc.1.s_big_digit_widgets i none } := by
  unfold main_window_unload_step
  split
  · rfl
  · rename_i h
    have h2 : acc.1.s_big_digit_widgets i = none := by simpa using h
    have : Function.update acc.1.s_big_digit_widgets i none = acc.1.s_big_digit_widgets := by
      rw [← h2]; exact Function.update_eq_self i _
    rw [this]

theorem main_window_unload_step_snd (acc : State × List HostCall) (i : Fin 4) :
    (main_window_unload_step acc i).2 =
      acc.2 ++ release_calls (acc.1.s_big_digit_widgets i) (HostCall.widget_big_digit_destroy i) := by
  unfold main_window_unload_step release_calls
  split <;> simp_all

theorem main_window_unload_fst (s : State) :
    (main_window_unload s).1 = { s with s_big_digit_widgets := fun _ => none } := by
  unfold main_window_unload
  simp only [List.foldl_cons, List.foldl_nil, main_window_unload_step_fst]
  have hf : Function.update (Function.update (Function.update (Function.update
      s.s_big_digit_widgets 0 none) 1 none) 2 none) 3 none = fun _ => none := by
    funext i
    fin_cases i <;> simp [Function.update]
  simp only [hf]

theorem main_window_unload_snd (s : State) :
    (main_window_unload s).2 =
      release_calls s.s_date_font HostCall.fonts_unload_custom_font
        ++ release_calls s.s_date_layer HostCall.text_layer_destroy
        ++ release_calls s.s_underline_layer (HostCall.layer_destroy LayerRef.underline)
        ++ release_calls s.s_battery_bar_layer (HostCall.layer_destroy LayerRef.battery_bar)
        ++ release_calls (s.s_big_digit_widgets 0) (HostCall.widget_big_digit_destroy 0)
        ++ release_calls (s.s_big_digit_widgets 1) (HostCall.widget_big_digit_destroy 1)
        ++ release_calls (s.s_big_digit_widgets 2) (HostCall.widget_big_digit_destroy 2)
        ++ release_calls (s.s_big_digit_widgets 3) (HostCall.widget_big_digit_destroy 3)
        ++ [HostCall.widget_big_digit_unload_images] := by
  unfold main_window_unload
  simp only [List.foldl_cons, List.foldl_nil, main_window_unload_step_fst,
    main_window_unload_step_snd]
  by_cases h1 : s.s_date_font = none <;> by_cases h2 : s.s_date_layer = none <;>
    by_cases h3 : s.s_underline_layer = none <;>
    by_cases h4 : s.s_battery_bar_layer = none <;>
    simp [h1, h2, h3, h4, Function.update, release_calls]

theorem count_release_calls (p : Ptr) (c r : HostCall) :
    List.count r (release_calls p c) = if c = r ∧ p ≠ none then 1 else 0 := by
  unfold release_calls
  by_cases hp : p = none <;> by_cases hc : c = r <;> simp [hp, hc, List.count_cons]

theorem main_window_unload_fully_constructed (s : State) (h : fully_constructed s) :
    (main_window_unload s).2 =
      [HostCall.fonts_unload_custom_font, HostCall.text_layer_destroy,
       HostCall.layer_destroy LayerRef.underline, HostCall.layer_destroy LayerRef.battery_bar,
       HostCall.widget_big_digit_destroy 0, HostCall.widget_big_digit_destroy 1,
       HostCall.widget_big_digit_destroy 2, HostCall.widget_big_digit_destroy 3,
       HostCall.widget_big_digit_unload_images] := by
  obtain ⟨h1, h2, h3, h4, h5⟩ := h
  rw [main_window_unload_snd]
  simp [release_calls, h1, h2, h3, h4, h5 0, h5 1, h5 2, h5 3]

theorem running_state_fully_constructed : fully_constructed running_state := by
  simp [fully_constructed, running_state]

/-- C8 (as stated, refuted): on `running_state`, where every resource is
present, the font unload is the first call of `main_window_unload`; neither the
date layer destroy nor the destroy of the last digit widget is issued before
it. -/
theorem main_window_unload_font_not_last_on_running_state :
    fully_constructed running_state ∧
    (main_window_unload running_state).2.head? = some HostCall.fonts_unload_custom_font ∧
    ¬ issued_before HostCall.text_layer_destroy HostCall.fonts_unload_custom_font
        (main_window_unload running_state).2 ∧
    ¬ issued_before (HostCall.widget_big_digit_destroy 3) HostCall.fonts_unload_custom_font
        (main_window_unload running_state).2 := by
  have h := main_window_unload_fully_constructed running_state running_state_fully_constructed
  rw [h]
  exact ⟨running_state_fully_constructed, rfl, by decide, by decide⟩

/-- C8 (amended): on a fully constructed state `main_window_unload` issues, in
this order, the font unload, the date layer destroy, the underline layer
destroy, the battery bar layer destroy, the destroy of the digit widgets 0 to 3
and the unload of the shared glyph images. The font unload is the first
release: it is issued before every layer destroy and every widget destroy. -/
theorem main_window_unload_order (s : State) (h : fully_constructed s) :
    (main_window_unload s).2 =
      [HostCall.fonts_unload_custom_font, HostCall.text_layer_destroy,
       HostCall.layer_destroy LayerRef.underline, HostCall.layer_destroy LayerRef.battery_bar,
       HostCall.widget_big_digit_destroy 0, HostCall.widget_big_digit_destroy 1,
       HostCall.widget_big_digit_destroy 2, HostCall.widget_big_digit_destroy 3,
       HostCall.widget_big_digit_unload_images] ∧
    ∀ r ∈ [HostCall.text_layer_destroy, HostCall.layer_destroy LayerRef.underline,
        HostCall.layer_destroy LayerRef.battery_bar, HostCall.widget_big_digit_destroy 0,
        HostCall.widget_big_digit_destroy 1, HostCall.widget_big_digit_destroy 2,
        HostCall.widget_big_digit_destroy 3],
      issued_before HostCall.fonts_unload_custom_font r (main_window_unload s).2 := by
  rw [main_window_unload_fully_constructed s h]
  exact ⟨rfl, by decide⟩

/-- C8 witness: the unload order on `running_state`. -/
theorem main_window_unload_order_witness :
    (main_window_unload running_state).2 =
      [HostCall.fonts_unload_custom_font, HostCall.text_layer_destroy,
       HostCall.layer_destroy LayerRef.underline, HostCall.layer_destroy LayerRef.battery_bar,
       HostCall.widget_big_digit_destroy 0, HostCall.widget_big_digit_destroy 1,
       HostCall.widget_big_digit_destroy 2, HostCall.widget_big_digit_destroy 3,
       HostCall.widget_big_digit_unload_images] :=
  (main_window_unload_order running_state (by simp [fully_constructed, running_state])).1

/-- C9: on every state, whichever of the font, the three layers and the four
digit widgets are present, `main_window_unload` issues the release call of a
resource once when the resource is present and not at all when it is absent;
it runs to its last statement (the unload of the shared glyph images ends the
trace) and leaves every digit widget pointer `NULL`. -/
theorem main_window_unload_releases_exactly_present (s : State) :
    List.count HostCall.fonts_unload_custom_font (main_window_unload s).2 =
      (if s.s_date_font ≠ none then 1 else 0) ∧
    List.count HostCall.text_layer_destroy (main_window_unload s).2 =
      (if s.s_date_layer ≠ none then 1 else 0) ∧
    List.count (HostCall.layer_destroy LayerRef.underline) (main_window_unload s).2 =
      (if s.s_underline_layer ≠ none then 1 else 0) ∧
    List.count (HostCall.layer_destroy LayerRef.battery_bar) (main_window_unload s).2 =
      (if s.s_battery_bar_layer ≠ none then 1 else 0) ∧
    (∀ i : Fin 4, List.count (HostCall.widget_big_digit_destroy i) (main_window_unload s).2 =
      (if s.s_big_digit_widgets i ≠ none then 1 else 0)) ∧
    (main_window_unload s).2.getLast? = some HostCall.widget_big_digit_unload_images ∧
    (∀ i : Fin 4, (main_window_unload s).1.s_big_digit_widgets i = none) := by
  rw [main_window_unload_snd, main_window_unload_fst]
  refine ⟨?_, ?_, ?_, ?_, fun i => ?_, ?_, fun _ => rfl⟩
  · simp [List.count_append, count_release_calls, List.count_cons]
  · simp [List.count_append, count_release_calls, List.count_cons]
  · simp [List.count_append, count_release_calls, List.count_cons]
  · simp [List.count_append, count_release_calls, List.count_cons]
  · fin_cases i <;> simp [List.count_append, count_release_calls, List.count_cons]
  · simp

/-! ## Frame properties -/

/-- C10: a battery event (`update_battery`, `battery_handler`) leaves the four
cached digits and the cached date as they were, and a minute tick
(`update_time`, `tick_handler`) leaves the cached battery percent as it was. -/
theorem handlers_frame (s : State) (ev peeked : BatteryChargeState) (tick_time : Tm)
    (obs : TimeObs) (quiet_time_active : Bool) :
    (update_battery s peeked).1.s_prev_time_digits = s.s_prev_time_digits ∧
    (update_battery s peeked).1.s_prev_date = s.s_prev_date ∧
    (battery_handler s ev peeked).1.s_prev_time_digits = s.s_prev_time_digits ∧
    (battery_handler s ev peeked).1.s_prev_date = s.s_prev_date ∧
    (update_time s obs).1.s_prev_battery_percent = s.s_prev_battery_percent ∧
    (tick_handler s tick_time obs quiet_time_active).1.s_prev_battery_percent =
      s.s_prev_battery_percent := by
  have hb : (battery_handler s ev peeked).1 = (update_battery s peeked).1 := rfl
  rw [hb, tick_handler_fst, update_battery_fst, update_time_fst]
  exact ⟨rfl, rfl, rfl, rfl, rfl, rfl⟩

/-! ## Layout of the date band, the battery bar and the underline -/

theorem tdiv_two (a : Int) :
    Int.tdiv a 2 = if 0 ≤ a then a / 2 else -((-a) / 2) := by
  split
  · rename_i h
    exact Int.tdiv_eq_ediv h (by norm_num)
  · rename_i h
    have h2 : 0 ≤ -a := by omega
    have h3 := Int.tdiv_eq_ediv h2 (by norm_num : (0 : Int) ≤ 2)
    rw [Int.neg_tdiv] at h3
    omega

/-- C11 (as stated, refuted): on a screen 169 high with glyphs 100 high the top
digit row ends at y = 70 while the date band starts at y = 69, and the bottom
digit row starts at y = 100 while the date band ends at y = 99. -/
theorem date_band_overlaps_digit_rows_on_odd_height :
    (main_window_layout 144 169 80 100).top_start + 100 = 70 ∧
    (main_window_layout 144 169 80 100).date_bounds.y = 69 ∧
    (main_window_layout 144 169 80 100).bottom_start = 100 ∧
    (main_window_layout 144 169 80 100).date_bounds.y +
      (main_window_layout 144 169 80 100).date_bounds.h = 99 := by
  decide

/-- C11 (amended): when the two digit rows and the date band fit on the screen
(glyph height not negative and 2*glyphHeight + 30 <= screenHeight) or the
screen height is even, the bottom edge of the top digit row (top row y +
glyphHeight) is the date band's top y, (screenHeight - 30) / 2, and the bottom
digit row's y is the date band's bottom y (top + 30); the band starts at x = 0,
is as wide as the screen and 30 high, and is the frame `main_window_load`
creates the date text layer with. -/
theorem date_band_between_digit_rows (s : State)
    (screen_width screen_height IMG_WIDTH IMG_HEIGHT : Int) (made : Created)
    (obs : TimeObs) (c : BatteryChargeState)
    (hfit : (0 ≤ IMG_HEIGHT ∧ 2 * IMG_HEIGHT + 30 ≤ screen_height) ∨ screen_height % 2 = 0) :
    (main_window_layout screen_width screen_height IMG_WIDTH IMG_HEIGHT).top_start + IMG_HEIGHT =
      (main_window_layout screen_width screen_height IMG_WIDTH IMG_HEIGHT).date_bounds.y ∧
    (main_window_layout screen_width screen_height IMG_WIDTH IMG_HEIGHT).bottom_start =
      (main_window_layout screen_width screen_height IMG_WIDTH IMG_HEIGHT).date_bounds.y +
        (main_window_layout screen_width screen_height IMG_WIDTH IMG_HEIGHT).date_bounds.h ∧
    (main_window_layout screen_width screen_height IMG_WIDTH IMG_HEIGHT).date_bounds =
      ⟨0, Int.tdiv (screen_height - 30) 2, screen_width, 30⟩ ∧
    HostCall.text_layer_create ⟨0, Int.tdiv (screen_height - 30) 2, screen_width, 30⟩ ∈
      (main_window_load s screen_width screen_height IMG_WIDTH IMG_HEIGHT made obs c).2 := by
  have h1 := tdiv_two (screen_height - IMG_HEIGHT * 2 - 30)
  have h2 := tdiv_two (screen_height - 30)
  refine ⟨?_, ?_, rfl, ?_⟩
  · simp only [main_window_layout]
    split at h1 <;> split at h2 <;> omega
  · simp only [main_window_layout]
    split at h1 <;> split at h2 <;> omega
  · unfold main_window_load
    simp [main_window_layout]

/-- C11 witness: a 200x228 screen with 80x100 glyphs; the top row ends and the
date band starts at y = 99, the band ends and the bottom row starts at
y = 129. -/
theorem date_band_between_digit_rows_witness :
    (main_window_layout 200 228 80 100).top_start + 100 = 99 ∧
    (main_window_layout 200 228 80 100).date_bounds.y = 99 ∧
    (main_window_layout 200 228 80 100).bottom_start = 129 ∧
    (main_window_layout 200 228 80 100).top_start + 100 =
      (main_window_layout 200 228 80 100).date_bounds.y :=
  ⟨by decide, by decide, by decide,
    (date_band_between_digit_rows fresh_state 200 228 80 100
      ⟨fun _ => some 0, some 0, some 0, some 0, some 0⟩
      ⟨1750509000, ⟨12, 30⟩, "Sat 21 Jun"⟩ ⟨50⟩ (Or.inr (by decide))).1⟩

/-- C12 (as stated, refuted): on a screen 169 high the battery bar's top edge is
at y = 71 and the underline's bottom edge at y = 97, which add up to 168. -/
theorem battery_bar_and_underline_not_mirrored_on_odd_height :
    (main_window_layout 144 169 80 100).battery_bar_bounds.y = 71 ∧
    (main_window_layout 144 169 80 100).underline.y +
      (main_window_layout 144 169 80 100).underline.h = 97 ∧
    (main_window_layout 144 169 80 100).battery_bar_bounds.y +
      ((main_window_layout 144 169 80 100).underline.y +
        (main_window_layout 144 169 80 100).underline.h) ≠ 169 := by
  decide

/-- C12 (amended): for every screen width w and height h the battery bar and
the underline computed in `main_window_load` have x = 0, width w and thickness
2, the battery bar ends above the midline (2 * bottom <= h) and the underline
starts below it (h <= 2 * top); when h is even the battery bar's top y and the
underline's bottom y add up to h. -/
theorem battery_bar_and_underline_mirrored
    (screen_width screen_height IMG_WIDTH IMG_HEIGHT : Int) :
    (main_window_layout screen_width screen_height IMG_WIDTH IMG_HEIGHT).battery_bar_bounds.x = 0 ∧
    (main_window_layout screen_width screen_height IMG_WIDTH IMG_HEIGHT).battery_bar_bounds.w =
      screen_width ∧
    (main_window_layout screen_width screen_height IMG_WIDTH IMG_HEIGHT).battery_bar_bounds.h = 2 ∧
    (main_window_layout screen_width screen_height IMG_WIDTH IMG_HEIGHT).underline.x = 0 ∧
    (main_window_layout screen_width screen_height IMG_WIDTH IMG_HEIGHT).underline.w =
      screen_width ∧
    (main_window_layout screen_width screen_height IMG_WIDTH IMG_HEIGHT).underline.h = 2 ∧
    2 * ((main_window_layout screen_width screen_height IMG_WIDTH IMG_HEIGHT).battery_bar_bounds.y +
      (main_window_layout screen_width screen_height IMG_WIDTH IMG_HEIGHT).battery_bar_bounds.h) ≤
      screen_height ∧
    screen_height ≤
      2 * (main_window_layout screen_width screen_height IMG_WIDTH IMG_HEIGHT).underline.y ∧
    (screen_height % 2 = 0 →
      (main_window_layout screen_width screen_height IMG_WIDTH IMG_HEIGHT).battery_bar_bounds.y +
        ((main_window_layout screen_width screen_height IMG_WIDTH IMG_HEIGHT).underline.y +
          (main_window_layout screen_width screen_height IMG_WIDTH IMG_HEIGHT).underline.h) =
        screen_height) := by
  have h1 := tdiv_two (screen_height - 30)
  have h2 := tdiv_two (screen_height + 30)
  refine ⟨rfl, rfl, rfl, rfl, rfl, rfl, ?_, ?_, ?_⟩
  · simp only [main_window_layout]
    split at h1 <;> omega
  · simp only [main_window_layout]
    split at h2 <;> omega
  · intro heven
    simp only [main_window_layout]
    split at h1 <;> split at h2 <;> omega

/-- C12 witness: on a 144x168 screen the battery bar's top edge is at y = 71,
the underline's bottom edge at y = 97, and 71 + 97 = 168. -/
theorem battery_bar_and_underline_mirrored_witness :
    (main_window_layout 144 168 80 100).battery_bar_bounds = ⟨0, 71, 144, 2⟩ ∧
    (main_window_layout 144 168 80 100).underline = ⟨0, 95, 144, 2⟩ ∧
    (main_window_layout 144 168 80 100).battery_bar_bounds.y +
      ((main_window_layout 144 168 80 100).underline.y +
        (main_window_layout 144 168 80 100).underline.h) = 168 :=
  ⟨by decide, by decide,
    (battery_bar_and_underline_mirrored 144 168 80 100).2.2.2.2.2.2.2.2 (by decide)⟩

/-! ## Cached digits -/

theorem time_digits_range (tick_time : Tm) (hh0 : 0 ≤ tick_time.tm_hour)
    (hh1 : tick_time.tm_hour ≤ 23) (hm0 : 0 ≤ tick_time.tm_min)
    (hm1 : tick_time.tm_min ≤ 59) (i : Fin 4) :
    0 ≤ time_digits tick_time i ∧ time_digits tick_time i ≤ 9 := by
  have h1 := Int.tdiv_eq_ediv hh0 (by norm_num : (0 : Int) ≤ 10)
  have h2 := Int.tmod_eq_emod hh0 (by norm_num : (0 : Int) ≤ 10)
  have h3 := Int.tdiv_eq_ediv hm0 (by norm_num : (0 : Int) ≤ 10)
  have h4 := Int.tmod_eq_emod hm0 (by norm_num : (0 : Int) ≤ 10)
  fin_cases i <;> simp [time_digits] <;> omega

/-- C13: after `update_time` has run on any state with an observed hour in
0..23 and minute in 0..59, each of the four cached digits is in 0..9, the
first two encode the hour (10*d0 + d1) and the last two the minute
(10*d2 + d3), and every digit passed to `widget_big_digit_set` is in 0..9. -/
theorem update_time_digits_encode_time (s : State) (obs : TimeObs)
    (hh0 : 0 ≤ obs.tick_time.tm_hour) (hh1 : obs.tick_time.tm_hour ≤ 23)
    (hm0 : 0 ≤ obs.tick_time.tm_min) (hm1 : obs.tick_time.tm_min ≤ 59) :
    (∀ i : Fin 4, 0 ≤ (update_time s obs).1.s_prev_time_digits i ∧
      (update_time s obs).1.s_prev_time_digits i ≤ 9) ∧
    10 * (update_time s obs).1.s_prev_time_digits 0 +
      (update_time s obs).1.s_prev_time_digits 1 = obs.tick_time.tm_hour ∧
    10 * (update_time s obs).1.s_prev_time_digits 2 +
      (update_time s obs).1.s_prev_time_digits 3 = obs.tick_time.tm_min ∧
    (∀ (i : Fin 4) (v : Int),
      HostCall.widget_big_digit_set i v ∈ (update_time s obs).2 → 0 ≤ v ∧ v ≤ 9) := by
  have h1 := Int.tdiv_eq_ediv hh0 (by norm_num : (0 : Int) ≤ 10)
  have h2 := Int.tmod_eq_emod hh0 (by norm_num : (0 : Int) ≤ 10)
  have h3 := Int.tdiv_eq_ediv hm0 (by norm_num : (0 : Int) ≤ 10)
  have h4 := Int.tmod_eq_emod hm0 (by norm_num : (0 : Int) ≤ 10)
  rw [update_time_fst]
  refine ⟨fun i => time_digits_range obs.tick_time hh0 hh1 hm0 hm1 i, ?_, ?_, ?_⟩
  · simp [time_digits]
    omega
  · simp [time_digits]
    omega
  · intro i v hv
    rcases (mem_update_time s obs _).1 hv with h | ⟨j, _, h | h⟩
    · exact absurd h.2 (by simp)
    · injection h with hi hv2
      rw [hv2]
      exact time_digits_range obs.tick_time hh0 hh1 hm0 hm1 j
    · exact absurd h (by simp)

/-- C13 witness: 23:59 observed on `fresh_state` caches the digits 2, 3, 5, 9. -/
theorem update_time_digits_encode_time_witness :
    10 * (update_time fresh_state ⟨1750550340, ⟨23, 59⟩, "Sat 21 Jun"⟩).1.s_prev_time_digits 0 +
      (update_time fresh_state ⟨1750550340, ⟨23, 59⟩, "Sat 21 Jun"⟩).1.s_prev_time_digits 1 = 23 ∧
    10 * (update_time fresh_state ⟨1750550340, ⟨23, 59⟩, "Sat 21 Jun"⟩).1.s_prev_time_digits 2 +
      (update_time fresh_state ⟨1750550340, ⟨23, 59⟩, "Sat 21 Jun"⟩).1.s_prev_time_digits 3 = 59 :=
  (update_time_digits_encode_time fresh_state ⟨1750550340, ⟨23, 59⟩, "Sat 21 Jun"⟩
    (by decide) (by decide) (by decide) (by decide)).2.1 |> fun h =>
      ⟨h, (update_time_digits_encode_time fresh_state ⟨1750550340, ⟨23, 59⟩, "Sat 21 Jun"⟩
        (by decide) (by decide) (by decide) (by decide)).2.2.1⟩

/-! ## Battery fill -/

theorem fill_widths_battery_update_proc (s : State) (bounds : GRect) :
    fill_widths (battery_update_proc s bounds) =
      [Int.tdiv (s.s_prev_battery_percent * bounds.w) 100] := by
  simp [fill_widths, battery_update_proc]

theorem fill_width_bounds (p w : Int) (hp0 : 0 ≤ p) (hp1 : p ≤ 100) (hw : 0 ≤ w) :
    0 ≤ Int.tdiv (p * w) 100 ∧ Int.tdiv (p * w) 100 ≤ w := by
  have hpw : 0 ≤ p * w := Int.mul_nonneg hp0 hw
  have hle : p * w ≤ 100 * w := Int.mul_le_mul_of_nonneg_right hp1 hw
  rw [Int.tdiv_eq_ediv hpw (by norm_num)]
  generalize p * w = a at hpw hle
  omega

/-- C14: for a bar of width w >= 0 and cached percents 0 <= p <= q <= 100,
`battery_update_proc` fills one rectangle in each case, and the widths satisfy
0 <= width(p) <= width(q) <= w. -/
theorem battery_fill_monotone_and_bounded (sp sq : State) (bounds : GRect)
    (hw : 0 ≤ bounds.w) (hp : 0 ≤ sp.s_prev_battery_percent)
    (hpq : sp.s_prev_battery_percent ≤ sq.s_prev_battery_percent)
    (hq : sq.s_prev_battery_percent ≤ 100) :
    fill_widths (battery_update_proc sp bounds) =
      [Int.tdiv (sp.s_prev_battery_percent * bounds.w) 100] ∧
    fill_widths (battery_update_proc sq bounds) =
      [Int.tdiv (sq.s_prev_battery_percent * bounds.w) 100] ∧
    0 ≤ Int.tdiv (sp.s_prev_battery_percent * bounds.w) 100 ∧
    Int.tdiv (sp.s_prev_battery_percent * bounds.w) 100 ≤
      Int.tdiv (sq.s_prev_battery_percent * bounds.w) 100 ∧
    Int.tdiv (sq.s_prev_battery_percent * bounds.w) 100 ≤ bounds.w := by
  have hq0 : 0 ≤ sq.s_prev_battery_percent := le_trans hp hpq
  have hp1 : sp.s_prev_battery_percent ≤ 100 := le_trans hpq hq
  refine ⟨fill_widths_battery_update_proc sp bounds, fill_widths_battery_update_proc sq bounds,
    (fill_width_bounds _ _ hp hp1 hw).1, ?_, (fill_width_bounds _ _ hq0 hq hw).2⟩
  rw [Int.tdiv_eq_ediv (Int.mul_nonneg hp hw) (by norm_num),
    Int.tdiv_eq_ediv (Int.mul_nonneg hq0 hw) (by norm_num)]
  exact Int.ediv_le_ediv (by norm_num) (Int.mul_le_mul_of_nonneg_right hpq hw)

/-- C14 witness: on a bar 144 wide, 33 percent fills 47 pixels and 50 percent
fills 72. -/
theorem battery_fill_monotone_and_bounded_witness :
    fill_widths (battery_update_proc { running_state with s_prev_battery_percent := 33 }
      ⟨0, 0, 144, 2⟩) = [47] ∧
    fill_widths (battery_update_proc running_state ⟨0, 0, 144, 2⟩) = [72] ∧
    Int.tdiv (33 * 144) 100 ≤ Int.tdiv (50 * 144) 100 :=
  ⟨by decide, by decide,
    (battery_fill_monotone_and_bounded { running_state with s_prev_battery_percent := 33 }
      running_state ⟨0, 0, 144, 2⟩ (by decide) (by decide) (by decide) (by decide)).2.2.2.1⟩

/-! ## The cached percent in the Active state -/

theorem main_window_load_percent (s : State)
    (screen_width screen_height IMG_WIDTH IMG_HEIGHT : Int) (made : Created)
    (obs : TimeObs) (c : BatteryChargeState) :
    (main_window_load s screen_width screen_height IMG_WIDTH IMG_HEIGHT made obs
      c).1.s_prev_battery_percent = c.charge_percent := by
  unfold main_window_load
  dsimp only
  rw [update_battery_fst]

theorem handle_event_percent (s : State) (e : Event) :
    (handle_event s e).s_prev_battery_percent =
      last_observed_percent s.s_prev_battery_percent [e] := by
  cases e with
  | minute_tick tick_time obs q =>
    show (tick_handler s tick_time obs q).1.s_prev_battery_percent = s.s_prev_battery_percent
    rw [tick_handler_fst, update_time_fst]
  | battery_event ev peeked =>
    show (update_battery s peeked).1.s_prev_battery_percent = peeked.charge_percent
    rw [update_battery_fst]

theorem run_events_percent (events : List Event) (s : State) :
    (run_events s events).s_prev_battery_percent =
      last_observed_percent s.s_prev_battery_percent events := by
  induction events generalizing s with
  | nil => rfl
  | cons e rest ih =>
    have h := handle_event_percent s e
    show (run_events (handle_event s e) rest).s_prev_battery_percent = _
    rw [ih (handle_event s e), h]
    rfl

theorem last_observed_percent_range (events : List Event) (p : Int)
    (hp : 0 ≤ p ∧ p ≤ 100) (hev : ∀ e ∈ events, event_percent_in_range e) :
    0 ≤ last_observed_percent p events ∧ last_observed_percent p events ≤ 100 := by
  induction events generalizing p with
  | nil => exact hp
  | cons e rest ih =>
    have hrest : ∀ x ∈ rest, event_percent_in_range x :=
      fun x hx => hev x (List.mem_cons_of_mem e hx)
    have he : event_percent_in_range e := hev e (List.mem_cons_self e rest)
    cases e with
    | minute_tick tick_time obs q => exact ih p hp hrest
    | battery_event ev peeked => exact ih peeked.charge_percent he hrest

/-- C15: after `main_window_load` with a battery percent in 0..100, followed by
any sequence of minute ticks and battery events whose percents are in 0..100,
the cached battery percent is the most recently observed percent, is in 0..100
and so is not the unset value -1, and on a bar of width >= 0 every fill width
`battery_update_proc` computes is not negative. -/
theorem active_state_percent_invariant (s : State)
    (screen_width screen_height IMG_WIDTH IMG_HEIGHT : Int) (made : Created)
    (obs : TimeObs) (c : BatteryChargeState) (events : List Event)
    (hc : 0 ≤ c.charge_percent ∧ c.charge_percent ≤ 100)
    (hev : ∀ e ∈ events, event_percent_in_range e) :
    (run_events (main_window_load s screen_width screen_height IMG_WIDTH IMG_HEIGHT made obs
        c).1 events).s_prev_battery_percent = last_observed_percent c.charge_percent events ∧
    (run_events (main_window_load s screen_width screen_height IMG_WIDTH IMG_HEIGHT made obs
        c).1 events).s_prev_battery_percent ≠ -1 ∧
    0 ≤ (run_events (main_window_load s screen_width screen_height IMG_WIDTH IMG_HEIGHT made obs
        c).1 events).s_prev_battery_percent ∧
    (run_events (main_window_load s screen_width screen_height IMG_WIDTH IMG_HEIGHT made obs
        c).1 events).s_prev_battery_percent ≤ 100 ∧
    (∀ bounds : GRect, 0 ≤ bounds.w →
      ∀ w ∈ fill_widths (battery_update_proc
        (run_events (main_window_load s screen_width screen_height IMG_WIDTH IMG_HEIGHT made obs
          c).1 events) bounds), 0 ≤ w) := by
  have heq := run_events_percent events
    (main_window_load s screen_width screen_height IMG_WIDTH IMG_HEIGHT made obs c).1
  rw [main_window_load_percent] at heq
  have hr := last_observed_percent_range events c.charge_percent hc hev
  rw [← heq] at hr
  refine ⟨heq, by omega, hr.1, hr.2, ?_⟩
  intro bounds hw w hmem
  rw [fill_widths_battery_update_proc] at hmem
  rw [List.mem_singleton] at hmem
  rw [hmem]
  exact (fill_width_bounds _ _ hr.1 hr.2 hw).1

/-- C15 witness: load from the initial state at 50 percent, then a battery
event at 80, a minute tick and a battery event at 70: the cache holds 70. -/
theorem active_state_percent_invariant_witness :
    (run_events (main_window_load initial_state 144 168 80 100
        ⟨fun _ => some 0, some 0, some 0, some 0, some 0⟩
        ⟨1750509000, ⟨12, 30⟩, "Sat 21 Jun"⟩ ⟨50⟩).1
      [Event.battery_event ⟨80⟩ ⟨80⟩,
       Event.minute_tick ⟨12, 31⟩ ⟨1750509060, ⟨12, 31⟩, "Sat 21 Jun"⟩ false,
       Event.battery_event ⟨70⟩ ⟨70⟩]).s_prev_battery_percent = 70 :=
  (active_state_percent_invariant initial_state 144 168 80 100
    ⟨fun _ => some 0, some 0, some 0, some 0, some 0⟩
    ⟨1750509000, ⟨12, 30⟩, "Sat 21 Jun"⟩ ⟨50⟩
    [Event.battery_event ⟨80⟩ ⟨80⟩,
     Event.minute_tick ⟨12, 31⟩ ⟨1750509060, ⟨12, 31⟩, "Sat 21 Jun"⟩ false,
     Event.battery_event ⟨70⟩ ⟨70⟩]
    (by decide)
    (by
      intro e he
      simp only [List.mem_cons, List.mem_singleton, List.not_mem_nil, or_false] at he
      rcases he with rfl | rfl | rfl
      · exact ⟨by decide, by decide⟩
      · exact True.intro
      · exact ⟨by decide, by decide⟩)).1

end Watchface
